import Mathlib

/-!
Shallow embedding of the RoverTeam-SPOT supervisor core
(src/supervisor/{process_manager,monitor,command_handler,config_loader}.py)
and proofs about the spec's claims over it.
-/

namespace Spot

/- ============================================================
   Data model (config_loader.py)
   ============================================================ -/

/-- A child-process handle as the supervisor observes it: asyncio's
`process.returncode` is `None` while the child runs and the exit code
once it has exited. -/
structure Proc where
  returncode : Option Int
deriving DecidableEq

/-- The `Subsystem` dataclass of config_loader.py: static configuration
plus runtime state.  Monotonic timestamps are modelled as rationals. -/
structure Subsystem where
  name : String
  priority_rank : Int
  path : String
  extra_args : List String
  process : Option Proc
  last_heartbeat : ℚ
  restart_pending : Bool
  intentionally_stopped : Bool
deriving DecidableEq

/- ============================================================
   flatten_args (config_loader.py lines 148-192)
   ============================================================ -/

/-- A python scalar value as it appears in a config `args` mapping
(anything that is not bool, list or None); it is rendered with `str`. -/
inductive Scal
  | sInt (n : Int)
  | sStr (s : String)
deriving DecidableEq

/-- Python `str` on a scalar. -/
def strOfScal : Scal → String
  | .sInt n => toString n
  | .sStr s => s

/-- A value of the `args` mapping: None, bool, list, or scalar
(the branches of flatten_args, in the code's test order). -/
inductive AVal
  | anull
  | abool (b : Bool)
  | alist (items : List Scal)
  | ascal (v : Scal)
deriving DecidableEq

/-- flatten_args from config_loader.py: iterates the mapping in declared
order (python dicts preserve insertion order), skipping None, emitting a
true bool as the bare flag, a list as flag/value once per element, and
any other value as flag plus `str(value)`. -/
def flatten_args : List (String × AVal) → List String
  | [] => []
  | (_, AVal.anull) :: rest => flatten_args rest
  | (key, AVal.abool b) :: rest => (if b then [key] else []) ++ flatten_args rest
  | (key, AVal.alist items) :: rest =>
      (items.flatMap fun item => [key, strOfScal item]) ++ flatten_args rest
  | (key, AVal.ascal v) :: rest => [key, strOfScal v] ++ flatten_args rest

/-- Spec-side description of the tokens one mapping entry contributes
(section 3 of the spec: bool emitted if true dropped if false, list
flag+value per element in order, scalar flag+stringified value, null
skipped). -/
def specArgTokens (key : String) : AVal → List String
  | .anull => []
  | .abool b => if b then [key] else []
  | .alist items => items.flatMap fun item => [key, strOfScal item]
  | .ascal v => [key, strOfScal v]

/- ============================================================
   load_subsystems acceptance (config_loader.py lines 85-105)
   ============================================================ -/

/-- The per-entry acceptance logic of load_subsystems: the name defaults
to the folder name, the priority to 5, and entries with priority < 0 are
skipped (explicit disable mechanism).  Filesystem scanning and parsing
are outside the model; this captures what reaches the registry. -/
def loadEntry (folderName : String) (cfgName : Option String)
    (cfgPriority : Option Int) (processPath : String)
    (args : List (String × AVal)) : Option Subsystem :=
  let name := cfgName.getD folderName
  let priority := cfgPriority.getD 5
  if priority < 0 then none
  else some
    { name := name
      priority_rank := priority
      path := processPath
      extra_args := flatten_args args
      process := none
      last_heartbeat := 0
      restart_pending := false
      intentionally_stopped := false }

/-- Every subsystem that load_subsystems accepts into the registry has a
non-negative priority_rank (priority < 0 entries are skipped). -/
lemma loadEntry_priority_nonneg {f : String} {n : Option String}
    {p : Option Int} {pp : String} {a : List (String × AVal)} {s : Subsystem}
    (h : loadEntry f n p pp a = some s) : 0 ≤ s.priority_rank := by
  unfold loadEntry at h
  by_cases hp : p.getD 5 < 0
  · simp [hp] at h
  · simp [hp] at h
    subst h
    exact le_of_not_lt hp

/- ============================================================
   Claim C10
   ============================================================ -/

/-- Claim C10: flatten_args emits tokens in the mapping's declared
order: a true bool emits the flag alone and a false bool nothing, a list
emits flag then stringified element once per element in list order, any
other scalar emits the flag and its stringification, null emits nothing;
and flattening the empty mapping yields the empty list. -/
theorem C10_flatten_args :
    flatten_args [] = []
    ∧ ∀ args : List (String × AVal),
        flatten_args args = args.flatMap fun kv => specArgTokens kv.1 kv.2 := by
  refine ⟨rfl, ?_⟩
  intro args
  induction args with
  | nil => rfl
  | cons kv rest ih =>
    obtain ⟨key, v⟩ := kv
    cases v <;> simp [flatten_args, specArgTokens, ih]

/- ============================================================
   ProcessManager lifecycle (process_manager.py)
   ============================================================ -/

/-- Whether a subsystem currently holds a live (not-yet-exited) child:
the test `sub.process and sub.process.returncode is None` used by
ProcessManager.start and CommandHandler._start. -/
def processLive (s : Subsystem) : Bool :=
  match s.process with
  | some p => p.returncode.isNone
  | none => false

/-- Outcome of `asyncio.create_subprocess_exec`: either a fresh handle
(whose returncode is still None) or an exception. -/
inductive SpawnResult
  | ok
  | fail
deriving DecidableEq

/-- ProcessManager.start (lines 70-109): a no-op when a live process
already exists; otherwise, on a successful spawn, stores the fresh
handle, initialises last_heartbeat to the current monotonic clock and
clears intentionally_stopped; on a spawn exception, clears the handle.
`now` is the value of `loop.time()`. -/
def start (now : ℚ) (res : SpawnResult) (s : Subsystem) : Subsystem :=
  if processLive s then s
  else
    match res with
    | .ok =>
        { s with
            process := some { returncode := none }
            last_heartbeat := now
            intentionally_stopped := false }
    | .fail => { s with process := none }

/-- A signal sent to the child during termination. -/
inductive Sig
  | sigterm
  | sigkill
deriving DecidableEq

/-- ProcessManager._terminate (lines 144-162): nothing when no handle;
when the child is still running, sends terminate and waits up to 5
seconds (`exitsWithinGrace` records whether the child exited within the
grace period), escalating to kill on timeout; always clears the handle
at the end. -/
def terminateSub (exitsWithinGrace : Bool) (s : Subsystem) : Subsystem × List Sig :=
  match s.process with
  | none => (s, [])
  | some p =>
      match p.returncode with
      | none =>
          if exitsWithinGrace then ({ s with process := none }, [Sig.sigterm])
          else ({ s with process := none }, [Sig.sigterm, Sig.sigkill])
      | some _ => ({ s with process := none }, [])

/-- ProcessManager.stop (lines 111-124): returns at once when no handle
is present; otherwise marks intentionally_stopped and runs _terminate. -/
def stop (exitsWithinGrace : Bool) (s : Subsystem) : Subsystem × List Sig :=
  match s.process with
  | none => (s, [])
  | some _ => terminateSub exitsWithinGrace { s with intentionally_stopped := true }

/-- ProcessManager.kill (lines 129-138): immediate kill used by the
Monitor; nothing when no handle, otherwise kill, wait, clear handle. -/
def kill (s : Subsystem) : Subsystem :=
  match s.process with
  | none => s
  | some _ => { s with process := none }

/- ============================================================
   Monitor (monitor.py)
   ============================================================ -/

/-- The heartbeat-timeout test of Monitor._check_subsystem line 102:
`now - sub.last_heartbeat > HEARTBEAT_TIMEOUT`, a strict comparison. -/
def heartbeatTimedOut (timeout now lastHb : ℚ) : Bool :=
  decide (now - lastHb > timeout)

/-- Monitor._schedule_restart entry (lines 114-119): a no-op when a
restart is already pending, otherwise sets restart_pending and launches
the delayed task (the Bool records whether a task was launched). -/
def scheduleRestart (s : Subsystem) : Subsystem × Bool :=
  if s.restart_pending then (s, false)
  else ({ s with restart_pending := true }, true)

/-- The body of the delayed `_restart` task (monitor.py lines 121-128):
after sleeping RESTART_DELAY it clears restart_pending, then calls
ProcessManager.start unless intentionally_stopped is set.  `now` is the
monotonic time after the delay; the Bool records whether start ran. -/
def restartTask (res : SpawnResult) (now : ℚ) (s : Subsystem) : Subsystem × Bool :=
  let s1 := { s with restart_pending := false }
  if s1.intentionally_stopped then (s1, false)
  else (start now res s1, true)

/-- Monitor._check_subsystem (lines 72-108): skip intentionally stopped
records; schedule a restart when the handle is absent (guarded on
restart_pending) or when the child has exited; on heartbeat timeout,
kill the child and schedule a restart. -/
def checkSubsystem (timeout now : ℚ) (s : Subsystem) : Subsystem :=
  if s.intentionally_stopped then s
  else
    match s.process with
    | none => if !s.restart_pending then (scheduleRestart s).1 else s
    | some p =>
        match p.returncode with
        | some _ => (scheduleRestart s).1
        | none =>
            if heartbeatTimedOut timeout now s.last_heartbeat then
              (scheduleRestart (kill s)).1
            else s

/- ============================================================
   Claim C9
   ============================================================ -/

/-- Claim C9: start is a no-op when the subsystem already has a live
process; otherwise on a successful spawn it sets the process handle,
initialises last_heartbeat to the current monotonic clock and clears
intentionally_stopped; on a spawn failure it leaves the handle absent. -/
theorem C9_start (now : ℚ) (s : Subsystem) :
    (processLive s = true → ∀ res, start now res s = s)
    ∧ (processLive s = false →
        start now SpawnResult.ok s =
          { s with
              process := some { returncode := none }
              last_heartbeat := now
              intentionally_stopped := false })
    ∧ (processLive s = false → (start now SpawnResult.fail s).process = none) := by
  refine ⟨?_, ?_, ?_⟩
  · intro h res
    simp [start, h]
  · intro h
    simp [start, h]
  · intro h
    simp [start, h]

/-- Witness for C9 at a concrete stopped subsystem. -/
theorem C9_start_witness :
    processLive
        { name := "drive", priority_rank := 5, path := "p", extra_args := [],
          process := none, last_heartbeat := 0, restart_pending := false,
          intentionally_stopped := true } = false
    ∧ (start 7 SpawnResult.ok
        { name := "drive", priority_rank := 5, path := "p", extra_args := [],
          process := none, last_heartbeat := 0, restart_pending := false,
          intentionally_stopped := true }) =
        { name := "drive", priority_rank := 5, path := "p", extra_args := [],
          process := some { returncode := none }, last_heartbeat := 7,
          restart_pending := false, intentionally_stopped := false } :=
  ⟨by decide,
   (C9_start 7
     { name := "drive", priority_rank := 5, path := "p", extra_args := [],
       process := none, last_heartbeat := 0, restart_pending := false,
       intentionally_stopped := true }).2.1 (by decide)⟩

/- ============================================================
   Claim C4
   ============================================================ -/

/-- Helper: stop on a record with no process handle returns immediately
without touching the record (process_manager.py lines 116-118). -/
lemma stop_noop (e : Bool) (t : Subsystem) (h : t.process = none) :
    stop e t = (t, []) := by
  simp [stop, h]

/-- Counterexample to claim C4 as stated: calling stop on a subsystem
whose process handle is already absent returns without marking
intentionally_stopped, so "after stop(sub) returns, intentionally_stopped
is true" fails on this concrete input. -/
theorem C4_counterexample :
    ((stop true
        { name := "drive", priority_rank := 5, path := "p", extra_args := [],
          process := none, last_heartbeat := 0, restart_pending := false,
          intentionally_stopped := false }).1).intentionally_stopped = false := by
  decide

/-- Claim C4 amended: when a process handle is present, stop marks
intentionally_stopped, clears the handle, signals terminate and (only if
the child does not exit within the 5-second grace period) escalates to a
hard kill, and sends no signal to an already-exited child; when the
handle is already absent, stop is a no-op that leaves the record
unchanged; consequently a second consecutive stop is a no-op. -/
theorem C4_stop (e : Bool) (s : Subsystem) :
    (∀ p, s.process = some p →
        ((stop e s).1 = { s with intentionally_stopped := true, process := none })
        ∧ (p.returncode = none →
              (stop e s).2 = if e then [Sig.sigterm] else [Sig.sigterm, Sig.sigkill])
        ∧ (∀ c, p.returncode = some c → (stop e s).2 = []))
    ∧ (s.process = none → stop e s = (s, []))
    ∧ (∀ e', stop e' ((stop e s).1) = ((stop e s).1, [])) := by
  refine ⟨?_, ?_, ?_⟩
  · intro p hp
    refine ⟨?_, ?_, ?_⟩
    · cases hrc : p.returncode <;> cases e <;>
        simp [stop, terminateSub, hp, hrc]
    · intro hrc
      cases e <;> simp [stop, terminateSub, hp, hrc]
    · intro c hrc
      simp [stop, terminateSub, hp, hrc]
  · intro hp
    exact stop_noop e s hp
  · intro e'
    have hnone : ((stop e s).1).process = none := by
      cases hp : s.process with
      | none => simp [stop, hp]
      | some p =>
        cases hrc : p.returncode <;> cases e <;>
          simp [stop, terminateSub, hp, hrc]
    exact stop_noop e' ((stop e s).1) hnone

/-- Witness for C4 at a concrete running subsystem that ignores the
terminate signal: stop marks it stopped, clears the handle and escalates
to a hard kill. -/
theorem C4_stop_witness :
    ((stop false
        { name := "drive", priority_rank := 5, path := "p", extra_args := [],
          process := some { returncode := none }, last_heartbeat := 3,
          restart_pending := false, intentionally_stopped := false }).1 =
      { name := "drive", priority_rank := 5, path := "p", extra_args := [],
        process := none, last_heartbeat := 3, restart_pending := false,
        intentionally_stopped := true })
    ∧ (stop false
        { name := "drive", priority_rank := 5, path := "p", extra_args := [],
          process := some { returncode := none }, last_heartbeat := 3,
          restart_pending := false, intentionally_stopped := false }).2 =
        [Sig.sigterm, Sig.sigkill] :=
  ⟨((C4_stop false
      { name := "drive", priority_rank := 5, path := "p", extra_args := [],
        process := some { returncode := none }, last_heartbeat := 3,
        restart_pending := false, intentionally_stopped := false }).1
      { returncode := none } rfl).1,
   by
     have h := ((C4_stop false
       { name := "drive", priority_rank := 5, path := "p", extra_args := [],
         process := some { returncode := none }, last_heartbeat := 3,
         restart_pending := false, intentionally_stopped := false }).1
       { returncode := none } rfl).2.1 rfl
     simpa using h⟩

/- ============================================================
   Claim C7
   ============================================================ -/

/-- Claim C7: the Monitor counts a subsystem as heartbeat-timed-out
exactly when now - last_heartbeat is strictly greater than
HEARTBEAT_TIMEOUT (exactly HEARTBEAT_TIMEOUT elapsed is not a timeout);
on a timeout of a live, not intentionally stopped subsystem it kills the
child and leaves restart_pending set; the delayed restart task clears
restart_pending and calls ProcessManager.start exactly when
intentionally_stopped has not become true. -/
theorem C7_heartbeat_timeout (timeout now : ℚ) (s : Subsystem) :
    (∀ lastHb : ℚ,
        (now - lastHb = timeout → heartbeatTimedOut timeout now lastHb = false)
        ∧ (timeout < now - lastHb → heartbeatTimedOut timeout now lastHb = true))
    ∧ (∀ p, s.intentionally_stopped = false → s.process = some p →
        p.returncode = none → timeout < now - s.last_heartbeat →
        checkSubsystem timeout now s =
          { s with process := none, restart_pending := true })
    ∧ (∀ res,
        ((restartTask res now s).1).restart_pending = false
        ∧ (s.intentionally_stopped = false →
            (restartTask res now s).2 = true
            ∧ (restartTask res now s).1 =
                start now res { s with restart_pending := false })
        ∧ (s.intentionally_stopped = true →
            (restartTask res now s).2 = false
            ∧ (restartTask res now s).1 = { s with restart_pending := false })) := by
  refine ⟨?_, ?_, ?_⟩
  · intro lastHb
    constructor
    · intro h
      simp [heartbeatTimedOut, h]
    · intro h
      simp [heartbeatTimedOut]
      linarith
  · intro p hstop hp hrc ht
    have htb : heartbeatTimedOut timeout now s.last_heartbeat = true := by
      simp [heartbeatTimedOut]
      linarith
    have hk : kill s = { s with process := none } := by
      simp [kill, hp]
    by_cases hpend : s.restart_pending = true
    · simp [checkSubsystem, hstop, hp, hrc, htb, hk, scheduleRestart, hpend]
    · simp only [Bool.not_eq_true] at hpend
      simp [checkSubsystem, hstop, hp, hrc, htb, hk, scheduleRestart, hpend]
  · intro res
    refine ⟨?_, ?_, ?_⟩
    · by_cases hstop : s.intentionally_stopped = true
      · simp [restartTask, hstop]
      · simp only [Bool.not_eq_true] at hstop
        cases hres : res <;>
          by_cases hlive : processLive { s with restart_pending := false } = true <;>
            simp_all [restartTask, start]
    · intro hstop
      simp [restartTask, hstop]
    · intro hstop
      simp [restartTask, hstop]

/-- Witness for C7 at concrete values: exactly 20 elapsed is not a
timeout, and a live subsystem 21 past its last heartbeat is killed with
a restart left pending. -/
theorem C7_heartbeat_timeout_witness :
    heartbeatTimedOut 20 25 5 = false
    ∧ checkSubsystem 20 26
        { name := "drive", priority_rank := 5, path := "p", extra_args := [],
          process := some { returncode := none }, last_heartbeat := 5,
          restart_pending := false, intentionally_stopped := false } =
        { name := "drive", priority_rank := 5, path := "p", extra_args := [],
          process := none, last_heartbeat := 5, restart_pending := true,
          intentionally_stopped := false } :=
  ⟨((C7_heartbeat_timeout 20 25
      { name := "drive", priority_rank := 5, path := "p", extra_args := [],
        process := none, last_heartbeat := 0, restart_pending := false,
        intentionally_stopped := false }).1 5).1 (by norm_num),
   (C7_heartbeat_timeout 20 26
      { name := "drive", priority_rank := 5, path := "p", extra_args := [],
        process := some { returncode := none }, last_heartbeat := 5,
        restart_pending := false, intentionally_stopped := false }).2.1
      { returncode := none } rfl rfl rfl (by norm_num)⟩

/- ============================================================
   StreamDemux (process_manager.py _read_stream, lines 164-245)
   ============================================================ -/

/-- Which pipe of the child a reader is attached to. -/
inductive StreamSrc
  | fromStdout
  | fromStderr
deriving DecidableEq

/-- The `stream_name` value a reader actually runs with:
ProcessManager.start (lines 104-105) launches both readers as
`self._read_stream(sub, pipe)` without passing the third argument, so
each reader gets the default `stream_name="stdout"` regardless of which
pipe it reads. -/
def readerStreamName : StreamSrc → String
  | _ => "stdout"

/-- Kernel-computable model of python `str.startswith`. -/
def pyStartsWith (s pre : String) : Bool := pre.data.isPrefixOf s.data

/-- Kernel-computable model of python `str.upper` (ASCII). -/
def pyToUpper (s : String) : String := String.mk (s.data.map Char.toUpper)

/-- Kernel-computable model of python `str.lower` (ASCII). -/
def pyToLower (s : String) : String := String.mk (s.data.map Char.toLower)

/-- Decoding of a raw line (line 179): decode with errors ignored, then
strip surrounding whitespace (python `str.strip`). -/
def stripLine (line : String) : String :=
  String.mk
    (((line.data.dropWhile Char.isWhitespace).reverse.dropWhile
        Char.isWhitespace).reverse)

/-- The fields the demux extracts from a successfully decoded JSON
object: `log_obj.get("msg", "")` and `log_obj.get("level", "INFO")`.
Absent keys are None here. -/
structure LogObj where
  msg : Option String
  level : Option String
deriving DecidableEq

/-- Classification of a non-heartbeat line (lines 191-200): on a decode
success, msg defaults to "" and level to "INFO" and is upper-cased; when
decoding fails (or the JSON is not an object), the message is the
decoded line verbatim and the level is ERROR when `stream_name` is
"stderr", else INFO.  Returns (message, level). -/
def classifyLine (streamName : String) (jsonResult : Option LogObj)
    (decoded : String) : String × String :=
  match jsonResult with
  | some obj => (obj.msg.getD "", pyToUpper (obj.level.getD "INFO"))
  | none => (decoded, if streamName = "stderr" then "ERROR" else "INFO")

/-- Python's `str.split()`: split on whitespace runs, dropping empty
tokens. -/
def pySplit (s : String) : List String :=
  ((s.data.splitOnP Char.isWhitespace).map String.mk).filter fun t => ¬ t = ""

/-- An observable action of the demux after classifying a line. -/
inductive Effect
  | consolePrint (s : String)
  | logCall (level msg : String)
  | commandTask (tokens : List String)
  | telemetryFrame (s : String)
deriving DecidableEq

/-- The logger method actually invoked by the dispatch at lines 231-240
(an unrecognised level falls through to info; the DEBUG arm there is
unreachable because DEBUG lines were dropped at line 202). -/
def consoleLogLevel (level : String) : String :=
  if level = "DEBUG" then "DEBUG"
  else if level = "WARNING" then "WARNING"
  else if level = "ERROR" then "ERROR"
  else if level = "CRITICAL" then "CRITICAL"
  else "INFO"

/-- What the demux does with one classified (level, message) pair
(lines 202-245): DEBUG lines are dropped; every other line is first
printed as `Received from <name>: <msg>` (line 208); then a message
starting with `SYSTEM CMD` is split and handed to the command callback
and nothing else happens; a message starting with `JSON ` is forwarded
as one `TELEMETRY <msg>` frame and nothing else happens; all remaining
messages are logged at the derived severity and forwarded as
`TELEMETRY <level> [<name>]: <msg>`. -/
def demuxStep (subName level message : String) : List Effect :=
  if level = "DEBUG" then []
  else
    Effect.consolePrint ("Received from " ++ subName ++ ": " ++ message) ::
      (if pyStartsWith message "SYSTEM CMD" then [Effect.commandTask (pySplit message)]
       else if pyStartsWith message "JSON " then
         [Effect.telemetryFrame ("TELEMETRY " ++ message)]
       else
         [Effect.logCall (consoleLogLevel level) ("[" ++ subName ++ "] " ++ message),
          Effect.telemetryFrame
            ("TELEMETRY " ++ level ++ " [" ++ subName ++ "]: " ++ message)])

/- ============================================================
   Claim C1
   ============================================================ -/

/-- Claim C1 fails on the code: a non-JSON line arriving on the child's
stderr is classified at level INFO, not ERROR, because start launches
both readers without the `stream_name` argument, so the stderr reader
runs with the default "stdout".  The message is still the trimmed line
verbatim, and _read_stream's own classification would yield ERROR had
"stderr" been passed. -/
theorem C1_stderr_level_bug :
    classifyLine (readerStreamName StreamSrc.fromStderr) none (stripLine "boom\n") =
      ("boom", "INFO")
    ∧ classifyLine "stderr" none "boom" = ("boom", "ERROR") := by
  constructor
  · decide
  · decide

/- ============================================================
   Claim C2
   ============================================================ -/

/-- Counterexample to claim C2 as stated: the demux prints a
`Received from` line to the console for a message starting with `JSON ` and
for a `SYSTEM CMD` message (line 208 runs before both checks), so
"does not print anything to the console" fails on these inputs. -/
theorem C2_counterexample :
    Effect.consolePrint "Received from drive: JSON 42" ∈
      demuxStep "drive" "INFO" "JSON 42"
    ∧ Effect.consolePrint "Received from drive: SYSTEM CMD stop arm" ∈
      demuxStep "drive" "INFO" "SYSTEM CMD stop arm" := by
  constructor <;> decide

/-- Claim C2 amended: for a non-DEBUG classified line, the demux prints
exactly one console line `Received from <name>: <msg>`; beyond that
print, a msg beginning with `SYSTEM CMD` is only handed (split on
whitespace) to the CommandHandler — no logger call, no telemetry frame —
and a msg beginning with `JSON ` is only forwarded to the
TelemetryPublisher as exactly one frame `TELEMETRY <msg>`. -/
theorem C2_demux_routing (name level msg : String) (hl : ¬ level = "DEBUG") :
    (pyStartsWith msg "SYSTEM CMD" = true →
        demuxStep name level msg =
          [Effect.consolePrint ("Received from " ++ name ++ ": " ++ msg),
           Effect.commandTask (pySplit msg)])
    ∧ (pyStartsWith msg "SYSTEM CMD" = false → pyStartsWith msg "JSON " = true →
        demuxStep name level msg =
          [Effect.consolePrint ("Received from " ++ name ++ ": " ++ msg),
           Effect.telemetryFrame ("TELEMETRY " ++ msg)]) := by
  constructor
  · intro hc
    simp [demuxStep, hl, hc]
  · intro hc hj
    simp [demuxStep, hl, hc, hj]

/-- Witness for C2 at a concrete telemetry line: one console print and
exactly one TELEMETRY frame. -/
theorem C2_demux_routing_witness :
    demuxStep "drive" "INFO" "JSON 42" =
      [Effect.consolePrint "Received from drive: JSON 42",
       Effect.telemetryFrame "TELEMETRY JSON 42"] :=
  (C2_demux_routing "drive" "INFO" "JSON 42" (by decide)).2 (by decide) (by decide)

/- ============================================================
   CommandHandler (command_handler.py)
   ============================================================ -/

/-- The CommandHandler's own mutable state: the restart-all
pending-confirmation flag (`_restart_all_confirmation`). -/
structure CmdState where
  restart_all_confirmation : Bool
deriving DecidableEq

/-- An observable action of CommandHandler.handle: a reply (which goes
to both the log and the telemetry bus), a call to supervisor.shutdown,
or dispatch into one of the subsystem command implementations. -/
inductive HOut
  | reply (level msg : String)
  | shutdownCall
  | restartCmd (args : List String)
  | stopCmd (args : List String)
  | startCmd (args : List String)
  | helpCmd
deriving DecidableEq

/-- CommandHandler._handle_restart_all_confirmation (lines 183-193):
clears the flag, then shuts the supervisor down when token 2 lowered is
"y", else replies that restart-all was cancelled. -/
def handleRestartAllConfirmation (args : List String) : CmdState × List HOut :=
  if 3 ≤ args.length ∧ pyToLower (args.getD 2 "") = "y" then
    ({ restart_all_confirmation := false },
     [HOut.reply "CRITICAL" "Shutting down supervisor...", HOut.shutdownCall])
  else
    ({ restart_all_confirmation := false },
     [HOut.reply "INFO" "Restart-all cancelled"])

/-- CommandHandler.handle (lines 23-80): rejects token vectors shorter
than 3 with an error (before looking at the confirmation flag); when a
restart-all confirmation is pending, consumes the vector as the
confirmation; otherwise dispatches on token 2, where `restart-all` sets
the pending-confirmation flag and replies with a warning. -/
def handle (st : CmdState) (args : List String) : CmdState × List HOut :=
  if args.length < 3 then
    (st, [HOut.reply "ERROR" "No command specified"])
  else if st.restart_all_confirmation then
    handleRestartAllConfirmation args
  else
    let command := args.getD 2 ""
    if command = "restart" then (st, [HOut.restartCmd args])
    else if command = "stop" then (st, [HOut.stopCmd args])
    else if command = "start" then (st, [HOut.startCmd args])
    else if command = "restart-all" then
      ({ restart_all_confirmation := true },
       [HOut.reply "WARNING"
          "WARNING: restart-all will terminate supervisor. Systemd must restart it. Confirm? [y/n]"])
    else if command = "help" then (st, [HOut.helpCmd])
    else (st, [HOut.reply "ERROR" ("Unknown command: " ++ command)])

/- ============================================================
   Claim C8
   ============================================================ -/

/-- Counterexample to claim C8 as stated: after restart-all sets the
pending-confirmation flag, a next command vector with fewer than 3
tokens (`SYSTEM CMD`) is rejected by the length check before the
confirmation branch, so it is neither consumed as the confirmation nor
does it clear the flag — contradicting "whatever command token vector
arrives next is consumed as the confirmation" and "any other next
command cancels and clears the flag". -/
theorem C8_counterexample :
    ((handle { restart_all_confirmation := false }
        ["SYSTEM", "CMD", "restart-all"]).1.restart_all_confirmation = true)
    ∧ ((handle
          (handle { restart_all_confirmation := false }
            ["SYSTEM", "CMD", "restart-all"]).1
          ["SYSTEM", "CMD"]).1.restart_all_confirmation = true)
    ∧ ¬ HOut.shutdownCall ∈
        (handle
          (handle { restart_all_confirmation := false }
            ["SYSTEM", "CMD", "restart-all"]).1
          ["SYSTEM", "CMD"]).2 := by
  refine ⟨by decide, by decide, by decide⟩

/-- Claim C8 amended: after restart-all is received the
pending-confirmation flag is set and a warning reply is sent; the next
command vector of length at least 3 is consumed as the confirmation —
shutdown runs exactly when its token at index 2 equals "y"
case-insensitively, anything else clears the flag without shutdown — and
a next vector of fewer than 3 tokens is answered with an error and
leaves the confirmation pending. -/
theorem C8_restart_all_protocol (st : CmdState) (args : List String) :
    (st.restart_all_confirmation = false → 3 ≤ args.length →
        args.getD 2 "" = "restart-all" →
        handle st args =
          ({ restart_all_confirmation := true },
           [HOut.reply "WARNING"
              "WARNING: restart-all will terminate supervisor. Systemd must restart it. Confirm? [y/n]"]))
    ∧ (st.restart_all_confirmation = true → 3 ≤ args.length →
        (pyToLower (args.getD 2 "") = "y" →
            handle st args =
              ({ restart_all_confirmation := false },
               [HOut.reply "CRITICAL" "Shutting down supervisor...",
                HOut.shutdownCall]))
        ∧ (¬ pyToLower (args.getD 2 "") = "y" →
            handle st args =
              ({ restart_all_confirmation := false },
               [HOut.reply "INFO" "Restart-all cancelled"])))
    ∧ (args.length < 3 →
        handle st args = (st, [HOut.reply "ERROR" "No command specified"])) := by
  refine ⟨?_, ?_, ?_⟩
  · intro hf hlen hcmd
    have hlt : ¬ args.length < 3 := by omega
    simp only [List.getD_eq_getElem?_getD] at hcmd
    simp [handle, hlt, hf, hcmd]
  · intro ht hlen
    have hlt : ¬ args.length < 3 := by omega
    constructor
    · intro hy
      simp only [List.getD_eq_getElem?_getD] at hy
      simp [handle, hlt, ht, handleRestartAllConfirmation, hlen, hy]
    · intro hy
      simp only [List.getD_eq_getElem?_getD] at hy
      simp [handle, hlt, ht, handleRestartAllConfirmation, hlen, hy]
  · intro hlen
    simp [handle, hlen]

/-- Witness for C8: the full two-step protocol at concrete inputs —
restart-all arms the flag, and a confirmation with token "Y" shuts the
supervisor down. -/
theorem C8_restart_all_protocol_witness :
    handle { restart_all_confirmation := false } ["SYSTEM", "CMD", "restart-all"] =
      ({ restart_all_confirmation := true },
       [HOut.reply "WARNING"
          "WARNING: restart-all will terminate supervisor. Systemd must restart it. Confirm? [y/n]"])
    ∧ handle { restart_all_confirmation := true } ["SYSTEM", "CMD", "Y"] =
        ({ restart_all_confirmation := false },
         [HOut.reply "CRITICAL" "Shutting down supervisor...", HOut.shutdownCall]) :=
  ⟨(C8_restart_all_protocol { restart_all_confirmation := false }
      ["SYSTEM", "CMD", "restart-all"]).1 rfl (by decide) rfl,
   ((C8_restart_all_protocol { restart_all_confirmation := true }
      ["SYSTEM", "CMD", "Y"]).2.1 rfl (by decide)).1 (by decide)⟩

/- ============================================================
   Interleaving model for the flag invariants (C3, C5)
   ============================================================ -/

/-- CommandHandler._stop (command_handler.py lines 144-156): marks the
record intentionally_stopped (line 150) and then calls
ProcessManager.stop. -/
def cmdStop (exitsWithinGrace : Bool) (s : Subsystem) : Subsystem × List Sig :=
  stop exitsWithinGrace { s with intentionally_stopped := true }

/-- One step of the supervisor system on a single subsystem record, at
the granularity of the event loop's suspension points: the child exits
on its own, the monitor scans the record, the operator issues a stop
command, a pending delayed restart task fires, or the operator issues a
start command. -/
inductive SysStep : Subsystem → Subsystem → Prop
  | childExits (s : Subsystem) (p : Proc) (c : Int)
      (hp : s.process = some p) (hl : p.returncode = none) :
      SysStep s { s with process := some { returncode := some c } }
  | monitorTick (timeout now : ℚ) (s : Subsystem) :
      SysStep s (checkSubsystem timeout now s)
  | operatorStop (e : Bool) (s : Subsystem) :
      SysStep s (cmdStop e s).1
  | restartFires (res : SpawnResult) (now : ℚ) (s : Subsystem)
      (h : s.restart_pending = true) :
      SysStep s (restartTask res now s).1
  | operatorStart (res : SpawnResult) (now : ℚ) (s : Subsystem) :
      SysStep s (start now res s)

/-- A freshly started subsystem: live handle, both flags clear. -/
def initSub : Subsystem :=
  { name := "drive", priority_rank := 5, path := "p", extra_args := [],
    process := some { returncode := none }, last_heartbeat := 0,
    restart_pending := false, intentionally_stopped := false }

/-- States the supervisor can reach from a freshly started subsystem. -/
def Reachable (s : Subsystem) : Prop :=
  Relation.ReflTransGen SysStep initSub s

/-- After the child exits with code 1. -/
def exitedSub : Subsystem :=
  { name := "drive", priority_rank := 5, path := "p", extra_args := [],
    process := some { returncode := some 1 }, last_heartbeat := 0,
    restart_pending := false, intentionally_stopped := false }

/-- After the monitor observes the exit: restart pending, but the record
still references the exited handle. -/
def observedSub : Subsystem :=
  { name := "drive", priority_rank := 5, path := "p", extra_args := [],
    process := some { returncode := some 1 }, last_heartbeat := 0,
    restart_pending := true, intentionally_stopped := false }

/-- After an operator stop lands during the restart delay: both flags
are simultaneously true. -/
def bothFlagsSub : Subsystem :=
  { name := "drive", priority_rank := 5, path := "p", extra_args := [],
    process := none, last_heartbeat := 0,
    restart_pending := true, intentionally_stopped := true }

/-- The exited state is reachable: the child exits on its own. -/
lemma reachable_exitedSub : Reachable exitedSub :=
  Relation.ReflTransGen.single
    (SysStep.childExits initSub { returncode := none } 1 rfl rfl)

/-- The observed state is reachable: a monitor tick on the exited state
runs the unexpected-exit branch, which schedules a restart but keeps the
exited handle. -/
lemma reachable_observedSub : Reachable observedSub :=
  Relation.ReflTransGen.tail reachable_exitedSub
    (SysStep.monitorTick 20 0 exitedSub)

/-- The both-flags state is reachable: an operator stop during the
restart delay sets intentionally_stopped while restart_pending is still
true. -/
lemma reachable_bothFlagsSub : Reachable bothFlagsSub :=
  Relation.ReflTransGen.tail reachable_observedSub
    (SysStep.operatorStop true observedSub)

/- ============================================================
   Claim C3
   ============================================================ -/

/-- Counterexample to claim C3 as stated: an interleaving in which the
child exits, the Monitor schedules a restart, and the operator then
issues a stop command before the restart delay elapses reaches a state
with restart_pending and intentionally_stopped simultaneously true. -/
theorem C3_counterexample :
    Reachable bothFlagsSub
    ∧ bothFlagsSub.restart_pending = true
    ∧ bothFlagsSub.intentionally_stopped = true :=
  ⟨reachable_bothFlagsSub, rfl, rfl⟩

/-- Claim C3 amended: restart_pending and intentionally_stopped can be
simultaneously true — an operator stop landing between restart
scheduling and the restart delay's expiry reaches such a state — but the
pending restart task is then harmless: when it fires it clears
restart_pending and, because intentionally_stopped is set, does not call
ProcessManager.start. -/
theorem C3_flags_not_exclusive :
    (Reachable bothFlagsSub
      ∧ bothFlagsSub.restart_pending = true
      ∧ bothFlagsSub.intentionally_stopped = true)
    ∧ (∀ (res : SpawnResult) (now : ℚ) (s : Subsystem),
        s.intentionally_stopped = true →
        (restartTask res now s).1 = { s with restart_pending := false }
        ∧ (restartTask res now s).2 = false) := by
  refine ⟨⟨reachable_bothFlagsSub, rfl, rfl⟩, ?_⟩
  intro res now s hstop
  constructor
  · simp [restartTask, hstop]
  · simp [restartTask, hstop]

/-- Witness for C3: the pending restart task fired on the both-flags
state clears restart_pending and does not start the subsystem. -/
theorem C3_flags_not_exclusive_witness :
    (restartTask SpawnResult.ok 9 bothFlagsSub).1 =
      { name := "drive", priority_rank := 5, path := "p", extra_args := [],
        process := none, last_heartbeat := 0,
        restart_pending := false, intentionally_stopped := true }
    ∧ (restartTask SpawnResult.ok 9 bothFlagsSub).2 = false :=
  C3_flags_not_exclusive.2 SpawnResult.ok 9 bothFlagsSub rfl

/- ============================================================
   Claim C5
   ============================================================ -/

/-- The handle invariant claimed by the spec: a record either holds a
live (not-yet-exited) child or holds no handle. -/
def HandleInvariant (s : Subsystem) : Prop :=
  ∀ p, s.process = some p → p.returncode = none

/-- Counterexample to claim C5 as stated: the reachable state right
after the Monitor's unexpected-exit branch ran on an exited child still
references the exited handle (checkSubsystem only sets restart_pending
there), so the record/handle invariant fails at a reachable instant
after the Monitor observed a non-None exit code. -/
theorem C5_counterexample :
    Reachable observedSub
    ∧ checkSubsystem 20 0 exitedSub = observedSub
    ∧ ¬ HandleInvariant observedSub := by
  refine ⟨reachable_observedSub, by decide, ?_⟩
  intro h
  have := h { returncode := some 1 } rfl
  simp at this

/-- Claim C5 amended: when the Monitor observes a non-None exit code on
a not intentionally stopped record, it only sets restart_pending and
keeps the exited handle in place; the handle is cleared by the
heartbeat-timeout kill, by stop, or replaced by a later start, not by
the exit observation itself. -/
theorem C5_exit_keeps_handle (timeout now : ℚ) (s : Subsystem) :
    ∀ p c, s.intentionally_stopped = false → s.process = some p →
      p.returncode = some c →
      checkSubsystem timeout now s = { s with restart_pending := true } := by
  intro p c hstop hp hrc
  by_cases hpend : s.restart_pending = true
  · cases s
    simp_all [checkSubsystem, scheduleRestart]
  · simp only [Bool.not_eq_true] at hpend
    simp [checkSubsystem, hstop, hp, hrc, scheduleRestart, hpend]

/-- Witness for C5: the monitor tick on the concrete exited state keeps
the exited handle and only marks the restart pending. -/
theorem C5_exit_keeps_handle_witness :
    checkSubsystem 20 0 exitedSub = { exitedSub with restart_pending := true } :=
  C5_exit_keeps_handle 20 0 exitedSub { returncode := some 1 } 1 rfl rfl rfl

/- ============================================================
   start_all tiers (process_manager.py lines 41-68)
   ============================================================ -/

/-- The tier assignment of start_all (lines 52-58): rank in [0,9] goes
to tier 1, rank in [10,99] to tier 2, everything else to tier 3. -/
def tierOf (s : Subsystem) : Nat :=
  if 0 ≤ s.priority_rank ∧ s.priority_rank ≤ 9 then 1
  else if 10 ≤ s.priority_rank ∧ s.priority_rank ≤ 99 then 2
  else 3

/-- The three tier batches start_all builds, in registry iteration
order. -/
def startAllTiers (subs : List Subsystem) : List (List Subsystem) :=
  [subs.filter fun s => tierOf s == 1,
   subs.filter fun s => tierOf s == 2,
   subs.filter fun s => tierOf s == 3]

/-- A start event of one subsystem: the coroutine `start(sub)` beginning
or completing. -/
inductive Ev
  | beginStart (n : String)
  | endStart (n : String)
deriving DecidableEq

/-- The subsystem name an event concerns. -/
def evName : Ev → String
  | .beginStart n => n
  | .endStart n => n

/-- A trace of one tier's `asyncio.gather`: every event belongs to a
member of the batch, and every member's start begins and later
completes within the trace (the gather is awaited to completion);
members may otherwise interleave freely. -/
def TierTrace (batch : List Subsystem) (tr : List Ev) : Prop :=
  (∀ e ∈ tr, ∃ s ∈ batch, evName e = s.name)
  ∧ ∀ s ∈ batch, ∃ p q : ℕ, ∃ hp : p < tr.length, ∃ hq : q < tr.length,
      p < q ∧ tr.get ⟨p, hp⟩ = Ev.beginStart s.name
        ∧ tr.get ⟨q, hq⟩ = Ev.endStart s.name

/-- A trace of start_all (lines 60-68): the tier-1 gather runs to
completion, then the tier-2 gather, then the tier-3 gather, so the
trace is the concatenation of one trace per tier batch. -/
def StartAllTrace (subs : List Subsystem) (tr : List Ev) : Prop :=
  ∃ t1 t2 t3 : List Ev, tr = t1 ++ t2 ++ t3
    ∧ TierTrace ((startAllTiers subs).getD 0 []) t1
    ∧ TierTrace ((startAllTiers subs).getD 1 []) t2
    ∧ TierTrace ((startAllTiers subs).getD 2 []) t3

/-- Helper: an index into an appended list lands in the left part (with
its position bound) or in the right part (at or past the left's
length). -/
lemma get_append_split {α : Type} (u v : List α) (p : ℕ)
    (hp : p < (u ++ v).length) :
    ((u ++ v).get ⟨p, hp⟩ ∈ u ∧ p < u.length)
    ∨ ((u ++ v).get ⟨p, hp⟩ ∈ v ∧ u.length ≤ p) := by
  by_cases h : p < u.length
  · left
    refine ⟨?_, h⟩
    rw [List.get_append _ h]
    exact u.get_mem _ _
  · right
    refine ⟨?_, le_of_not_lt h⟩
    have h2 : p - u.length < v.length := by
      simp only [List.length_append] at hp
      omega
    have heq : (u ++ v).get ⟨p, hp⟩ = v.get ⟨p - u.length, h2⟩ := by
      simp [List.get_eq_getElem, List.getElem_append_right (le_of_not_lt h)]
    rw [heq]
    exact v.get_mem _ _

/-- Helper: an index into a three-way concatenation lands in exactly one
segment, with the matching position bounds. -/
lemma get_append3_split {α : Type} (t1 t2 t3 : List α) (p : ℕ)
    (hp : p < (t1 ++ t2 ++ t3).length) :
    ((t1 ++ t2 ++ t3).get ⟨p, hp⟩ ∈ t1 ∧ p < t1.length)
    ∨ ((t1 ++ t2 ++ t3).get ⟨p, hp⟩ ∈ t2
        ∧ t1.length ≤ p ∧ p < t1.length + t2.length)
    ∨ ((t1 ++ t2 ++ t3).get ⟨p, hp⟩ ∈ t3 ∧ t1.length + t2.length ≤ p) := by
  rcases get_append_split (t1 ++ t2) t3 p hp with ⟨hm, hlt⟩ | ⟨hm, hge⟩
  · have heq : (t1 ++ t2 ++ t3).get ⟨p, hp⟩ = (t1 ++ t2).get ⟨p, hlt⟩ :=
      List.get_append p hlt
    rcases get_append_split t1 t2 p hlt with ⟨hm2, hlt2⟩ | ⟨hm2, hge2⟩
    · left
      exact ⟨heq ▸ hm2, hlt2⟩
    · right
      left
      refine ⟨heq ▸ hm2, hge2, ?_⟩
      simp only [List.length_append] at hlt
      omega
  · right
    right
    refine ⟨hm, ?_⟩
    simp only [List.length_append] at hge
    omega

/-- Helper: under unique names, no event of another tier's trace can
carry the name of a subsystem of tier `k0 ≠ k`. -/
lemma no_foreign_names {subs : List Subsystem}
    (hu : ∀ a ∈ subs, ∀ b ∈ subs, a.name = b.name → a = b)
    {A : Subsystem} (hA : A ∈ subs) {k : ℕ} (hk : ¬ tierOf A = k)
    {tr : List Ev}
    (htr : ∀ e ∈ tr, ∃ s ∈ subs.filter (fun s => tierOf s == k), evName e = s.name) :
    ∀ e ∈ tr, ¬ evName e = A.name := by
  intro e he heq
  obtain ⟨s, hs, hname⟩ := htr e he
  rw [List.mem_filter] at hs
  obtain ⟨hsmem, hstier⟩ := hs
  have hsa : s = A := hu s hsmem A hA (hname ▸ heq)
  rw [hsa] at hstier
  simp at hstier
  exact hk hstier

/-- Helper: tierOf only takes the values 1, 2, 3. -/
lemma tierOf_cases (s : Subsystem) : tierOf s = 1 ∨ tierOf s = 2 ∨ tierOf s = 3 := by
  unfold tierOf
  split_ifs <;> simp

/-- Helper: the position of an event named after subsystem A inside a
start_all trace is bounded by A's tier segment. -/
lemma pos_in_own_tier {subs : List Subsystem}
    (hu : ∀ a ∈ subs, ∀ b ∈ subs, a.name = b.name → a = b)
    {A : Subsystem} (hA : A ∈ subs)
    {t1 t2 t3 : List Ev}
    (h1 : ∀ e ∈ t1, ∃ s ∈ subs.filter (fun s => tierOf s == 1), evName e = s.name)
    (h2 : ∀ e ∈ t2, ∃ s ∈ subs.filter (fun s => tierOf s == 2), evName e = s.name)
    (h3 : ∀ e ∈ t3, ∃ s ∈ subs.filter (fun s => tierOf s == 3), evName e = s.name)
    {p : ℕ} (hp : p < (t1 ++ t2 ++ t3).length)
    (hname : evName ((t1 ++ t2 ++ t3).get ⟨p, hp⟩) = A.name) :
    (tierOf A = 1 → p < t1.length)
    ∧ (tierOf A = 2 → t1.length ≤ p ∧ p < t1.length + t2.length)
    ∧ (tierOf A = 3 → t1.length + t2.length ≤ p) := by
  rcases get_append3_split t1 t2 t3 p hp with ⟨hm, hb⟩ | ⟨hm, hb⟩ | ⟨hm, hb⟩
  · refine ⟨fun hk => hb, fun hk => ?_, fun hk => ?_⟩ <;>
      exact absurd hname (no_foreign_names hu hA (by omega) h1 _ hm)
  · refine ⟨fun hk => ?_, fun hk => hb, fun hk => ?_⟩ <;>
      exact absurd hname (no_foreign_names hu hA (by omega) h2 _ hm)
  · refine ⟨fun hk => ?_, fun hk => ?_, fun hk => hb⟩ <;>
      exact absurd hname (no_foreign_names hu hA (by omega) h3 _ hm)

/-- The witnessing interleaved trace for two same-tier subsystems: b's
start begins before a's completes. -/
def interTrace (a b : Subsystem) : List Ev :=
  [Ev.beginStart a.name, Ev.beginStart b.name,
   Ev.endStart a.name, Ev.endStart b.name]

/-- Helper: two subsystems of one tier accept the interleaved trace as a
trace of that tier's gather. -/
lemma interTrace_tierTrace (a b : Subsystem) (hb : tierOf b = tierOf a) :
    TierTrace ([a, b].filter fun s => tierOf s == tierOf a) (interTrace a b) := by
  have hfil : ([a, b].filter fun s => tierOf s == tierOf a) = [a, b] := by
    simp [List.filter, hb]
  rw [hfil]
  constructor
  · intro e he
    simp only [interTrace, List.mem_cons, List.not_mem_nil, or_false] at he
    rcases he with rfl | rfl | rfl | rfl
    · exact ⟨a, by simp, rfl⟩
    · exact ⟨b, by simp, rfl⟩
    · exact ⟨a, by simp, rfl⟩
    · exact ⟨b, by simp, rfl⟩
  · intro s hs
    simp only [List.mem_cons, List.not_mem_nil, or_false] at hs
    rcases hs with rfl | rfl
    · exact ⟨0, 2, by simp [interTrace], by simp [interTrace], by omega, rfl, rfl⟩
    · exact ⟨1, 3, by simp [interTrace], by simp [interTrace], by omega, rfl, rfl⟩

/-- Helper: the empty trace is a trace of the empty batch. -/
lemma tierTrace_nil : TierTrace [] [] := by
  constructor
  · intro e he
    simp at he
  · intro s hs
    simp at hs

/- ============================================================
   Claim C6
   ============================================================ -/

/-- Claim C6: start_all partitions the registry (whose ranks are
non-negative, as load_subsystems skips priority < 0) into tier 1 with
rank in [0,9], tier 2 with rank in [10,99] and tier 3 with rank at
least 100; in any start_all trace, for subsystems A and B with
tierOf A < tierOf B, every completion of A's start precedes every
beginning of B's start; and within one tier starts may interleave: for
two same-tier subsystems the trace where b begins before a completes is
a valid start_all trace. -/
theorem C6_start_all_tiers (subs : List Subsystem)
    (h0 : ∀ s ∈ subs, 0 ≤ s.priority_rank)
    (hu : ∀ a ∈ subs, ∀ b ∈ subs, a.name = b.name → a = b) :
    (∀ s ∈ subs,
        (tierOf s = 1 ↔ s.priority_rank ≤ 9)
        ∧ (tierOf s = 2 ↔ 10 ≤ s.priority_rank ∧ s.priority_rank ≤ 99)
        ∧ (tierOf s = 3 ↔ 100 ≤ s.priority_rank))
    ∧ (∀ (tr : List Ev) (A B : Subsystem), StartAllTrace subs tr →
        A ∈ subs → B ∈ subs → tierOf A < tierOf B →
        ∀ (p q : ℕ) (hp : p < tr.length) (hq : q < tr.length),
          tr.get ⟨p, hp⟩ = Ev.endStart A.name →
          tr.get ⟨q, hq⟩ = Ev.beginStart B.name → p < q)
    ∧ (∀ a b : Subsystem, tierOf b = tierOf a →
        StartAllTrace [a, b] (interTrace a b)) := by
  refine ⟨?_, ?_, ?_⟩
  · intro s hs
    have h0s := h0 s hs
    unfold tierOf
    split_ifs with h1 h2 <;>
      (refine ⟨?_, ?_, ?_⟩ <;> constructor <;> intro h <;> omega)
  · rintro tr A B ⟨t1, t2, t3, rfl, ht1, ht2, ht3⟩ hA hB hij p q hp hq hpe hqe
    have hAn : evName ((t1 ++ t2 ++ t3).get ⟨p, hp⟩) = A.name := by
      rw [hpe]
      rfl
    have hBn : evName ((t1 ++ t2 ++ t3).get ⟨q, hq⟩) = B.name := by
      rw [hqe]
      rfl
    have hposA := pos_in_own_tier hu hA ht1.1 ht2.1 ht3.1 hp hAn
    have hposB := pos_in_own_tier hu hB ht1.1 ht2.1 ht3.1 hq hBn
    have pA1 := hposA.1
    have pA2 := hposA.2.1
    have pA3 := hposA.2.2
    have qB1 := hposB.1
    have qB2 := hposB.2.1
    have qB3 := hposB.2.2
    rcases tierOf_cases A with hta | hta | hta <;>
      rcases tierOf_cases B with htb | htb | htb <;>
        rw [hta, htb] at hij <;>
        omega
  · intro a b hb
    have htt := interTrace_tierTrace a b hb
    have hnil : ∀ k : ℕ, ¬ tierOf a = k →
        ([a, b].filter fun s => tierOf s == k) = [] := by
      intro k hk
      have ha2 : (tierOf a == k) = false := by
        simp only [beq_eq_false_iff_ne]
        exact hk
      have hb2 : (tierOf b == k) = false := by
        simp only [beq_eq_false_iff_ne, hb]
        exact hk
      simp [List.filter, ha2, hb2]
    rcases tierOf_cases a with hk | hk | hk
    · refine ⟨interTrace a b, [], [], by simp, ?_, ?_, ?_⟩
      · show TierTrace ([a, b].filter fun s => tierOf s == 1) (interTrace a b)
        rw [← hk]
        exact htt
      · show TierTrace ([a, b].filter fun s => tierOf s == 2) []
        rw [hnil 2 (by omega)]
        exact tierTrace_nil
      · show TierTrace ([a, b].filter fun s => tierOf s == 3) []
        rw [hnil 3 (by omega)]
        exact tierTrace_nil
    · refine ⟨[], interTrace a b, [], by simp, ?_, ?_, ?_⟩
      · show TierTrace ([a, b].filter fun s => tierOf s == 1) []
        rw [hnil 1 (by omega)]
        exact tierTrace_nil
      · show TierTrace ([a, b].filter fun s => tierOf s == 2) (interTrace a b)
        rw [← hk]
        exact htt
      · show TierTrace ([a, b].filter fun s => tierOf s == 3) []
        rw [hnil 3 (by omega)]
        exact tierTrace_nil
    · refine ⟨[], [], interTrace a b, by simp, ?_, ?_, ?_⟩
      · show TierTrace ([a, b].filter fun s => tierOf s == 1) []
        rw [hnil 1 (by omega)]
        exact tierTrace_nil
      · show TierTrace ([a, b].filter fun s => tierOf s == 2) []
        rw [hnil 2 (by omega)]
        exact tierTrace_nil
      · show TierTrace ([a, b].filter fun s => tierOf s == 3) (interTrace a b)
        rw [← hk]
        exact htt

/-- A concrete tier-1 subsystem for the C6 witness. -/
def subA : Subsystem :=
  { name := "a", priority_rank := 1, path := "pa", extra_args := [],
    process := none, last_heartbeat := 0, restart_pending := false,
    intentionally_stopped := false }

/-- A concrete tier-2 subsystem for the C6 witness. -/
def subB : Subsystem :=
  { name := "b", priority_rank := 50, path := "pb", extra_args := [],
    process := none, last_heartbeat := 0, restart_pending := false,
    intentionally_stopped := false }

/-- A concrete two-subsystem registry. -/
def subsAB : List Subsystem := [subA, subB]

/-- A concrete start_all trace of that registry: a starts and completes,
then b starts and completes. -/
def trAB : List Ev :=
  [Ev.beginStart "a", Ev.endStart "a", Ev.beginStart "b", Ev.endStart "b"]

/-- Helper: the concrete trace trAB is a start_all trace of subsAB. -/
lemma trAB_startAllTrace : StartAllTrace subsAB trAB := by
  refine ⟨[Ev.beginStart "a", Ev.endStart "a"],
          [Ev.beginStart "b", Ev.endStart "b"], [],
          by decide, ⟨by decide, ?_⟩, ⟨by decide, ?_⟩, ⟨by decide, ?_⟩⟩
  · intro s hs
    have hb : ((startAllTiers subsAB).getD 0 []) = [subA] := by decide
    rw [hb] at hs
    simp only [List.mem_cons, List.not_mem_nil, or_false] at hs
    subst hs
    exact ⟨0, 1, by decide, by decide, by decide, by decide, by decide⟩
  · intro s hs
    have hb : ((startAllTiers subsAB).getD 1 []) = [subB] := by decide
    rw [hb] at hs
    simp only [List.mem_cons, List.not_mem_nil, or_false] at hs
    subst hs
    exact ⟨0, 1, by decide, by decide, by decide, by decide, by decide⟩
  · intro s hs
    have hb : ((startAllTiers subsAB).getD 2 []) = [] := by decide
    rw [hb] at hs
    simp at hs

/-- Witness for C6 at the concrete registry subsAB and trace trAB:
subA lands in tier 1, subB in tier 2, and the position of subA's start
completion precedes the position of subB's start beginning. -/
theorem C6_start_all_tiers_witness :
    tierOf subA = 1 ∧ tierOf subB = 2 ∧ (1 : ℕ) < 2 := by
  have H := C6_start_all_tiers subsAB (by decide) (by decide)
  refine ⟨(H.1 subA (by decide)).1.mpr (by decide),
          (H.1 subB (by decide)).2.1.mpr (by decide), ?_⟩
  exact H.2.1 trAB subA subB trAB_startAllTrace (by decide) (by decide)
    (by decide) 1 2 (by decide) (by decide) (by decide) (by decide)

end Spot
